import Mathlib

/-!
# Verification of the `playground/pysolver` mock solver service

Shallow embedding of `src/playground/pysolver/models.py` (pydantic schema
layer) and `src/playground/pysolver/main.py` (the quote / solve / reveal
handlers), with theorems settling the frozen claims about the service.

Modelling conventions:
* JSON values are the inductive `Json`; objects are association lists in
  insertion order, looked up by first match (pydantic ignores unknown keys).
* Python `int` is Lean `Int`; Python `//` is `Int.fdiv` (floor division);
  Python `str(int)` is `toString`.
* JSON numbers carry a `Rat`; Python `float` fields (the fee-policy factors)
  are modelled by the rational value a finite IEEE double denotes — no
  arithmetic is ever performed on them, they are only carried and re-emitted.
* `datetime` values are modelled by their ISO-8601 wire string: the handlers
  never inspect a deadline, they only carry it.
* Python `dict` fields are association lists of their entries.
* Encoders model wire serialization (pydantic dump with aliases, as the
  FastAPI boundary performs it): field order is declaration order and the
  `class` alias is emitted; optional fields that are `None` are emitted as
  `null` (pydantic does not drop them).
-/

namespace PySolver

/-- JSON values. Objects keep their fields as an ordered association list. -/
inductive Json where
  | null : Json
  | bool (b : Bool) : Json
  | num (q : Rat) : Json
  | str (s : String) : Json
  | arr (items : List Json) : Json
  | obj (fields : List (String × Json)) : Json
deriving Repr

/-- The top-level key list of a JSON object (`[]` for non-objects). -/
def Json.topKeys : Json → List String
  | .obj fields => fields.map Prod.fst
  | _ => []

/-- First-match lookup of a key in a JSON object's field list. -/
def jLookup : List (String × Json) → String → Option Json
  | [], _ => none
  | (k, v) :: rest, key => if k == key then some v else jLookup rest key

/-- Python `int(s)` on a string: optional sign followed by at least one
decimal digit (surrounding whitespace and underscore grouping, which CPython
also tolerates, play no role in any claim and are not modelled). -/
def pyIntOfString? (s : String) : Option Int :=
  let core (digits : List Char) (sign : Int) : Option Int :=
    if digits ≠ [] ∧ digits.all Char.isDigit then
      some (sign * (digits.foldl (fun acc c => acc * 10 + (c.toNat - 48)) 0 : Nat))
    else none
  match s.toList with
  | '-' :: rest => core rest (-1)
  | '+' :: rest => core rest 1
  | chars => core chars 1

/-- Truncation toward zero, as Python `int(float)` performs. -/
def pyTrunc (q : Rat) : Int := if 0 ≤ q then ⌊q⌋ else ⌈q⌉

-- ---------------------------------------------------------------------------
-- Domain types (models.py)
-- ---------------------------------------------------------------------------

/-- models.py:8 — `Address` is an annotated `str` (no validation attached). -/
abbrev Address := String
/-- models.py:9 — `TokenAmount` is an annotated `str` (no validation attached). -/
abbrev TokenAmount := String
/-- models.py:10 — `BigUint` is an annotated `str` (no validation attached). -/
abbrev BigUint := String
/-- models.py:11 — `OrderUID` is an annotated `str` (no validation attached). -/
abbrev OrderUID := String
/-- models.py:12 — `DateTime`, modelled by its ISO-8601 wire string. -/
abbrev DateTime := String

/-- `Literal["buy", "sell"]`. -/
inductive OrderKind where
  | buy
  | sell
deriving DecidableEq, Repr

/-- `Literal["market", "limit"]` (the `class` wire field). -/
inductive OrderClass where
  | market
  | limit
deriving DecidableEq, Repr

/-- `Literal["erc20", "internal", "external"]` (sell-token balance source). -/
inductive SellBalanceSource where
  | erc20
  | internal
  | external
deriving DecidableEq, Repr

/-- `Literal["erc20", "internal"]` (buy-token balance source). -/
inductive BuyBalanceSource where
  | erc20
  | internal
deriving DecidableEq, Repr

/-- `Literal["eip712", "ethsign", "presign", "eip1271"]`. -/
inductive SigningScheme where
  | eip712
  | ethsign
  | presign
  | eip1271
deriving DecidableEq, Repr

/-- models.py:15 `Interaction`. -/
structure Interaction where
  target : Address
  value : TokenAmount
  callData : String
deriving DecidableEq, Repr

/-- models.py:25 `Quote`. -/
structure Quote where
  sellAmount : TokenAmount
  buyAmount : TokenAmount
  fee : TokenAmount
  solver : Address
deriving DecidableEq, Repr

/-- models.py:33-51 — the `FeePolicy` discriminated union
(`SurplusFee | PriceImprovement | VolumeFee`, discriminator `kind`).
The float-valued factors are carried as the rationals they denote. -/
inductive FeePolicy where
  | surplusFee (maxVolumeFactor factor : Rat)
  | priceImprovement (maxVolumeFactor factor : Rat) (quote : Quote)
  | volumeFee (factor : Rat)
deriving DecidableEq, Repr

/-- The `kind` discriminator value of a `FeePolicy` variant. -/
def FeePolicy.kindTag : FeePolicy → String
  | .surplusFee _ _ => "surplus"
  | .priceImprovement _ _ _ => "priceImprovement"
  | .volumeFee _ => "volume"

/-- models.py:69 `Order` (the documented auction-order schema; the `class`
wire field is stored as `klass`, mirroring the pydantic alias). -/
structure Order where
  uid : OrderUID
  sellToken : Address
  buyToken : Address
  sellAmount : TokenAmount
  buyAmount : TokenAmount
  created : String
  validTo : Int
  kind : OrderKind
  receiver : Address
  owner : Address
  partiallyFillable : Bool
  executed : TokenAmount
  preInteractions : List Interaction
  postInteractions : List Interaction
  sellTokenBalance : SellBalanceSource
  buyTokenBalance : BuyBalanceSource
  klass : OrderClass
  appData : String
  signingScheme : SigningScheme
  signature : String
  protocolFees : List FeePolicy
  quote : Option Quote := none
deriving DecidableEq, Repr

/-- models.py:93 `Calldata`. -/
structure Calldata where
  internalized : String
  uninternalized : String
deriving DecidableEq, Repr

/-- models.py:53 `JitOrder`. -/
structure JitOrder where
  sellToken : Address
  buyToken : Address
  sellAmount : TokenAmount
  buyAmount : TokenAmount
  executedAmount : TokenAmount
  receiver : Address
  validTo : Int
  side : OrderKind
  partiallyFillable : Bool
  sellTokenSource : SellBalanceSource
  buyTokenSource : BuyBalanceSource
  appData : String
  signature : String
  signingScheme : SigningScheme
deriving DecidableEq, Repr

/-- models.py:110 `QuoteResponse`. -/
structure QuoteResponse where
  clearingPrices : List (Address × BigUint)
  preInteractions : List Interaction
  interactions : List Interaction
  solver : Address
  gas : Int
  txOrigin : Option Address := none
  jitOrders : List JitOrder
deriving DecidableEq, Repr

/-- models.py:144 `RevealRequest`. -/
structure RevealRequest where
  solutionId : Int
  auctionId : Int
deriving DecidableEq, Repr

/-- models.py:148 `RevealResponse`. -/
structure RevealResponse where
  calldata : Calldata
deriving DecidableEq, Repr

/-- models.py:166 `SolverTokenBalance`. -/
structure SolverTokenBalance where
  balance : TokenAmount
deriving DecidableEq, Repr

/-- models.py:169 `SolverLiquidity`. -/
structure SolverLiquidity where
  address : Address
  fee : String
  gasEstimate : TokenAmount
  id : String
  kind : String
  router : Address
  tokens : List (Address × SolverTokenBalance)
deriving DecidableEq, Repr

/-- models.py:178 `SolverTokenInfo`. -/
structure SolverTokenInfo where
  availableBalance : TokenAmount
  decimals : Option Int := none
  referencePrice : Option TokenAmount := none
  symbol : Option String := none
  trusted : Bool
deriving DecidableEq, Repr

/-- models.py:185 `SolverOrder` (the `/solve` request order; the `class`
wire field is stored as `klass`, mirroring the pydantic alias; the untyped
`List` fields carry raw JSON). -/
structure SolverOrder where
  appData : String
  buyAmount : TokenAmount
  buyToken : Address
  buyTokenDestination : String
  klass : OrderClass
  fullBuyAmount : TokenAmount
  fullSellAmount : TokenAmount
  kind : OrderKind
  owner : Address
  partiallyFillable : Bool
  postInteractions : List Json := []
  preInteractions : List Json := []
  sellAmount : TokenAmount
  sellToken : Address
  sellTokenSource : String
  signature : String
  signingScheme : String
  uid : OrderUID
  validTo : Int
  receiver : Option Address := none
  created : Option String := none
  executed : Option TokenAmount := none
  protocolFees : List Json := []
deriving Repr

/-- models.py:210 `SolverRequest` (the `/solve` request body). -/
structure SolverRequest where
  deadline : DateTime
  effectiveGasPrice : TokenAmount
  id : Option Int := none
  liquidity : List SolverLiquidity
  orders : List SolverOrder
  surplusCapturingJitOrderOwners : List Address
  tokens : List (Address × SolverTokenInfo)
deriving Repr

/-- `Literal["fulfillment"]`, the fixed `kind` tag of a trade. -/
inductive FulfillmentTag where
  | fulfillment
deriving DecidableEq, Repr

/-- `Literal["liquidity"]`, the fixed `kind` tag of an interaction. -/
inductive LiquidityTag where
  | liquidity
deriving DecidableEq, Repr

/-- models.py:230 `TradeFulfillment`. -/
structure TradeFulfillment where
  kind : FulfillmentTag := .fulfillment
  order : OrderUID
  executedAmount : TokenAmount
  fee : Option TokenAmount := none
deriving DecidableEq, Repr

/-- models.py:236 `LiquidityInteraction`. -/
structure LiquidityInteraction where
  kind : LiquidityTag := .liquidity
  internalize : Bool
  id : String
  inputToken : Address
  outputToken : Address
  inputAmount : TokenAmount
  outputAmount : TokenAmount
deriving DecidableEq, Repr

/-- models.py:245 `Solution`. -/
structure Solution where
  id : Int
  prices : List (Address × TokenAmount)
  trades : List TradeFulfillment
  interactions : List LiquidityInteraction
  gas : Option Int := none
deriving DecidableEq, Repr

/-- models.py:254 `SolveResponse`. -/
structure SolveResponse where
  solutions : List Solution
deriving DecidableEq, Repr

-- ---------------------------------------------------------------------------
-- JSON codecs for the pydantic models
--
-- Decoders model pydantic validation of a parsed JSON body: unknown object
-- keys are ignored, required fields must be present, `Optional[...] = None`
-- fields accept `null` or absence, and each field decodes at its declared
-- JSON type (the framework's lax string-to-number coercions are outside the
-- source and not modelled).  Encoders model the wire serialization the
-- FastAPI boundary performs (dump with aliases, `None` emitted as `null`).
-- ---------------------------------------------------------------------------

/-- Decode every element of a JSON array, failing on the first bad element. -/
def decodeEach (f : Json → Option α) : List Json → Option (List α)
  | [] => some []
  | j :: rest =>
    match f j, decodeEach f rest with
    | some a, some as => some (a :: as)
    | _, _ => none

/-- Decode every value of a JSON object used as a dict. -/
def decodeEntries (f : Json → Option α) :
    List (String × Json) → Option (List (String × α))
  | [] => some []
  | (k, j) :: rest =>
    match f j, decodeEntries f rest with
    | some a, some as => some ((k, a) :: as)
    | _, _ => none

/-- A required field: present and valid, else the whole decode fails. -/
def reqField (o : List (String × Json)) (key : String)
    (f : Json → Option α) : Option α :=
  match jLookup o key with
  | some v => f v
  | none => none

/-- An `Optional[...] = None` field: absent or `null` is `none`. -/
def optField (o : List (String × Json)) (key : String)
    (f : Json → Option α) : Option (Option α) :=
  match jLookup o key with
  | none => some none
  | some .null => some none
  | some v => (f v).map some

def decodeString : Json → Option String
  | .str s => some s
  | _ => none

/-- An `int` field under pydantic v2's default (lax) validation: accepts an
integer number, an integral float, and a decimal string with optional sign
(the framework's tolerance for surrounding whitespace and underscore
grouping plays no role in any claim and is not modelled); a JSON bool is
rejected for int fields. -/
def decodeInt : Json → Option Int
  | .num q => if q.den = 1 then some q.num else none
  | .str s => pyIntOfString? s
  | _ => none

/-- A `bool` field under pydantic v2's default (lax) validation: accepts a
JSON bool, the numbers 0 and 1, and the case-insensitive strings
true/t/yes/y/on/1 and false/f/no/n/off/0. -/
def decodeBoolean : Json → Option Bool
  | .bool b => some b
  | .num q => if q = 0 then some false else if q = 1 then some true else none
  | .str s =>
    match s.toLower with
    | "true" | "t" | "yes" | "y" | "on" | "1" => some true
    | "false" | "f" | "no" | "n" | "off" | "0" => some false
    | _ => none
  | _ => none

/-- A `float` field accepts any JSON number; the value is carried as `Rat`. -/
def decodeFloat : Json → Option Rat
  | .num q => some q
  | _ => none

def encodeOpt (f : α → Json) : Option α → Json
  | none => .null
  | some a => f a

/-- A JSON array field. -/
def decodeArr (f : Json → Option α) : Json → Option (List α)
  | .arr xs => decodeEach f xs
  | _ => none

/-- A JSON object field used as a dict. -/
def decodeDict (f : Json → Option α) : Json → Option (List (String × α))
  | .obj entries => decodeEntries f entries
  | _ => none

/-- models.py:9 — `TokenAmount` is a bare annotated `str`: any JSON string
decodes successfully, with no validation of its content. -/
def decodeTokenAmount : Json → Option TokenAmount := decodeString

def decodeOrderKind : Json → Option OrderKind
  | .str "buy" => some .buy
  | .str "sell" => some .sell
  | _ => none

def encodeOrderKind : OrderKind → Json
  | .buy => .str "buy"
  | .sell => .str "sell"

def decodeOrderClass : Json → Option OrderClass
  | .str "market" => some .market
  | .str "limit" => some .limit
  | _ => none

def encodeOrderClass : OrderClass → Json
  | .market => .str "market"
  | .limit => .str "limit"

def decodeSellBalanceSource : Json → Option SellBalanceSource
  | .str "erc20" => some .erc20
  | .str "internal" => some .internal
  | .str "external" => some .external
  | _ => none

def encodeSellBalanceSource : SellBalanceSource → Json
  | .erc20 => .str "erc20"
  | .internal => .str "internal"
  | .external => .str "external"

def decodeBuyBalanceSource : Json → Option BuyBalanceSource
  | .str "erc20" => some .erc20
  | .str "internal" => some .internal
  | _ => none

def encodeBuyBalanceSource : BuyBalanceSource → Json
  | .erc20 => .str "erc20"
  | .internal => .str "internal"

def decodeSigningScheme : Json → Option SigningScheme
  | .str "eip712" => some .eip712
  | .str "ethsign" => some .ethsign
  | .str "presign" => some .presign
  | .str "eip1271" => some .eip1271
  | _ => none

def encodeSigningScheme : SigningScheme → Json
  | .eip712 => .str "eip712"
  | .ethsign => .str "ethsign"
  | .presign => .str "presign"
  | .eip1271 => .str "eip1271"

def decodeInteraction : Json → Option Interaction
  | .obj o => do
    let target ← reqField o "target" decodeString
    let value ← reqField o "value" decodeTokenAmount
    let callData ← reqField o "callData" decodeString
    pure { target, value, callData }
  | _ => none

def encodeInteraction (x : Interaction) : Json :=
  .obj [("target", .str x.target), ("value", .str x.value),
        ("callData", .str x.callData)]

def decodeQuote : Json → Option Quote
  | .obj o => do
    let sellAmount ← reqField o "sellAmount" decodeTokenAmount
    let buyAmount ← reqField o "buyAmount" decodeTokenAmount
    let fee ← reqField o "fee" decodeTokenAmount
    let solver ← reqField o "solver" decodeString
    pure { sellAmount, buyAmount, fee, solver }
  | _ => none

def encodeQuote (q : Quote) : Json :=
  .obj [("sellAmount", .str q.sellAmount), ("buyAmount", .str q.buyAmount),
        ("fee", .str q.fee), ("solver", .str q.solver)]

/-- models.py:48-51 — discriminated-union decoding of `FeePolicy`: the
`kind` tag is read first and dispatches to the matching variant schema;
a missing or unrecognized tag fails. -/
def decodeFeePolicy : Json → Option FeePolicy
  | .obj o =>
    match jLookup o "kind" with
    | some (.str "surplus") => do
      let maxVolumeFactor ← reqField o "maxVolumeFactor" decodeFloat
      let factor ← reqField o "factor" decodeFloat
      pure (.surplusFee maxVolumeFactor factor)
    | some (.str "priceImprovement") => do
      let maxVolumeFactor ← reqField o "maxVolumeFactor" decodeFloat
      let factor ← reqField o "factor" decodeFloat
      let quote ← reqField o "quote" decodeQuote
      pure (.priceImprovement maxVolumeFactor factor quote)
    | some (.str "volume") => do
      let factor ← reqField o "factor" decodeFloat
      pure (.volumeFee factor)
    | _ => none
  | _ => none

def encodeFeePolicy : FeePolicy → Json
  | .surplusFee maxVolumeFactor factor =>
    .obj [("kind", .str "surplus"), ("maxVolumeFactor", .num maxVolumeFactor),
          ("factor", .num factor)]
  | .priceImprovement maxVolumeFactor factor quote =>
    .obj [("kind", .str "priceImprovement"),
          ("maxVolumeFactor", .num maxVolumeFactor),
          ("factor", .num factor), ("quote", encodeQuote quote)]
  | .volumeFee factor =>
    .obj [("kind", .str "volume"), ("factor", .num factor)]

/-- models.py:69-91 — decoding an `Order`; the order-class field is read
from the wire name `class` (pydantic alias). -/
def decodeOrder : Json → Option Order
  | .obj o =>
    match reqField o "uid" decodeString,
          reqField o "sellToken" decodeString,
          reqField o "buyToken" decodeString,
          reqField o "sellAmount" decodeTokenAmount,
          reqField o "buyAmount" decodeTokenAmount,
          reqField o "created" decodeString,
          reqField o "validTo" decodeInt,
          reqField o "kind" decodeOrderKind,
          reqField o "receiver" decodeString,
          reqField o "owner" decodeString,
          reqField o "partiallyFillable" decodeBoolean,
          reqField o "executed" decodeTokenAmount,
          reqField o "preInteractions" (decodeArr decodeInteraction),
          reqField o "postInteractions" (decodeArr decodeInteraction),
          reqField o "sellTokenBalance" decodeSellBalanceSource,
          reqField o "buyTokenBalance" decodeBuyBalanceSource,
          reqField o "class" decodeOrderClass,
          reqField o "appData" decodeString,
          reqField o "signingScheme" decodeSigningScheme,
          reqField o "signature" decodeString,
          reqField o "protocolFees" (decodeArr decodeFeePolicy),
          optField o "quote" decodeQuote with
    | some uid, some sellToken, some buyToken, some sellAmount,
      some buyAmount, some created, some validTo, some kind, some receiver,
      some owner, some partiallyFillable, some executed, some preInteractions,
      some postInteractions, some sellTokenBalance, some buyTokenBalance,
      some klass, some appData, some signingScheme, some signature,
      some protocolFees, some quote =>
      some { uid, sellToken, buyToken, sellAmount, buyAmount, created,
             validTo, kind, receiver, owner, partiallyFillable, executed,
             preInteractions, postInteractions, sellTokenBalance,
             buyTokenBalance, klass, appData, signingScheme, signature,
             protocolFees, quote }
    | _, _, _, _, _, _, _, _, _, _, _, _, _, _, _, _, _, _, _, _, _, _ => none
  | _ => none

/-- Wire serialization of an `Order`; the order-class field is emitted
under its wire name `class`. -/
def encodeOrder (x : Order) : Json :=
  .obj [("uid", .str x.uid),
        ("sellToken", .str x.sellToken),
        ("buyToken", .str x.buyToken),
        ("sellAmount", .str x.sellAmount),
        ("buyAmount", .str x.buyAmount),
        ("created", .str x.created),
        ("validTo", .num x.validTo),
        ("kind", encodeOrderKind x.kind),
        ("receiver", .str x.receiver),
        ("owner", .str x.owner),
        ("partiallyFillable", .bool x.partiallyFillable),
        ("executed", .str x.executed),
        ("preInteractions", .arr (x.preInteractions.map encodeInteraction)),
        ("postInteractions", .arr (x.postInteractions.map encodeInteraction)),
        ("sellTokenBalance", encodeSellBalanceSource x.sellTokenBalance),
        ("buyTokenBalance", encodeBuyBalanceSource x.buyTokenBalance),
        ("class", encodeOrderClass x.klass),
        ("appData", .str x.appData),
        ("signingScheme", encodeSigningScheme x.signingScheme),
        ("signature", .str x.signature),
        ("protocolFees", .arr (x.protocolFees.map encodeFeePolicy)),
        ("quote", encodeOpt encodeQuote x.quote)]

/-- `Literal["fulfillment"] = "fulfillment"`: absent takes the default,
the literal value is accepted, anything else fails. -/
def decodeFulfillmentTag (o : List (String × Json)) : Option FulfillmentTag :=
  match jLookup o "kind" with
  | none => some .fulfillment
  | some (.str "fulfillment") => some .fulfillment
  | some _ => none

def decodeTradeFulfillment : Json → Option TradeFulfillment
  | .obj o => do
    let kind ← decodeFulfillmentTag o
    let order ← reqField o "order" decodeString
    let executedAmount ← reqField o "executedAmount" decodeTokenAmount
    let fee ← optField o "fee" decodeTokenAmount
    pure { kind, order, executedAmount, fee }
  | _ => none

def encodeTradeFulfillment (t : TradeFulfillment) : Json :=
  .obj [("kind", .str "fulfillment"),
        ("order", .str t.order),
        ("executedAmount", .str t.executedAmount),
        ("fee", encodeOpt Json.str t.fee)]

/-- `Literal["liquidity"] = "liquidity"`: absent takes the default. -/
def decodeLiquidityTag (o : List (String × Json)) : Option LiquidityTag :=
  match jLookup o "kind" with
  | none => some .liquidity
  | some (.str "liquidity") => some .liquidity
  | some _ => none

def decodeLiquidityInteraction : Json → Option LiquidityInteraction
  | .obj o => do
    let kind ← decodeLiquidityTag o
    let internalize ← reqField o "internalize" decodeBoolean
    let id ← reqField o "id" decodeString
    let inputToken ← reqField o "inputToken" decodeString
    let outputToken ← reqField o "outputToken" decodeString
    let inputAmount ← reqField o "inputAmount" decodeTokenAmount
    let outputAmount ← reqField o "outputAmount" decodeTokenAmount
    pure { kind, internalize, id, inputToken, outputToken, inputAmount,
           outputAmount }
  | _ => none

def encodeLiquidityInteraction (x : LiquidityInteraction) : Json :=
  .obj [("kind", .str "liquidity"),
        ("internalize", .bool x.internalize),
        ("id", .str x.id),
        ("inputToken", .str x.inputToken),
        ("outputToken", .str x.outputToken),
        ("inputAmount", .str x.inputAmount),
        ("outputAmount", .str x.outputAmount)]

/-- models.py:245-252 — decoding a `Solution`. -/
def decodeSolution : Json → Option Solution
  | .obj o => do
    let id ← reqField o "id" decodeInt
    let prices ← reqField o "prices" (decodeDict decodeTokenAmount)
    let trades ← reqField o "trades" (decodeArr decodeTradeFulfillment)
    let interactions ← reqField o "interactions" (decodeArr decodeLiquidityInteraction)
    let gas ← optField o "gas" decodeInt
    pure { id, prices, trades, interactions, gas }
  | _ => none

/-- Wire serialization of a `Solution`. -/
def encodeSolution (s : Solution) : Json :=
  .obj [("id", .num s.id),
        ("prices", .obj (s.prices.map fun kv => (kv.1, .str kv.2))),
        ("trades", .arr (s.trades.map encodeTradeFulfillment)),
        ("interactions", .arr (s.interactions.map encodeLiquidityInteraction)),
        ("gas", encodeOpt (fun n => Json.num n) s.gas)]

-- ---------------------------------------------------------------------------
-- Decoding the /solve request body
-- ---------------------------------------------------------------------------

/-- Python `int(v)` applied to a parsed JSON value, as the `id` field
validator does: strings parse as decimal integers, numbers truncate toward
zero, booleans count as 0/1 (`bool` is an `int` subtype in Python); `null`,
arrays and objects raise. -/
def pyIntCoerce : Json → Option Int
  | .num q => some (pyTrunc q)
  | .str s => pyIntOfString? s
  | .bool b => some (if b then 1 else 0)
  | _ => none

/-- models.py:213,219-224 — the `id: Optional[int] = None` field of
`SolverRequest` together with its `mode="before"` validator `anystr_to_int`:
absent keeps the default `None`, `null` is passed through, any other value
goes through `int(v)`. -/
def decodeRequestId (o : List (String × Json)) : Option (Option Int) :=
  match jLookup o "id" with
  | none => some none
  | some .null => some none
  | some v => (pyIntCoerce v).map some

def decodeSolverTokenBalance : Json → Option SolverTokenBalance
  | .obj o => do
    let balance ← reqField o "balance" decodeTokenAmount
    pure { balance }
  | _ => none

def decodeSolverLiquidity : Json → Option SolverLiquidity
  | .obj o => do
    let address ← reqField o "address" decodeString
    let fee ← reqField o "fee" decodeString
    let gasEstimate ← reqField o "gasEstimate" decodeTokenAmount
    let id ← reqField o "id" decodeString
    let kind ← reqField o "kind" decodeString
    let router ← reqField o "router" decodeString
    let tokens ← reqField o "tokens" (decodeDict decodeSolverTokenBalance)
    pure { address, fee, gasEstimate, id, kind, router, tokens }
  | _ => none

def decodeSolverTokenInfo : Json → Option SolverTokenInfo
  | .obj o => do
    let availableBalance ← reqField o "availableBalance" decodeTokenAmount
    let decimals ← optField o "decimals" decodeInt
    let referencePrice ← optField o "referencePrice" decodeTokenAmount
    let symbol ← optField o "symbol" decodeString
    let trusted ← reqField o "trusted" decodeBoolean
    pure { availableBalance, decimals, referencePrice, symbol, trusted }
  | _ => none

/-- An untyped `List = []` field: absent defaults to `[]`, a present value
must be an array and is carried raw. -/
def rawListField (o : List (String × Json)) (key : String) :
    Option (List Json) :=
  match jLookup o key with
  | none => some []
  | some (.arr xs) => some xs
  | some _ => none

/-- models.py:185-208 — decoding a `SolverOrder`; the order-class field is
read from the wire name `class` (pydantic alias). -/
def decodeSolverOrder : Json → Option SolverOrder
  | .obj o =>
    match reqField o "appData" decodeString,
          reqField o "buyAmount" decodeTokenAmount,
          reqField o "buyToken" decodeString,
          reqField o "buyTokenDestination" decodeString,
          reqField o "class" decodeOrderClass,
          reqField o "fullBuyAmount" decodeTokenAmount,
          reqField o "fullSellAmount" decodeTokenAmount,
          reqField o "kind" decodeOrderKind,
          reqField o "owner" decodeString,
          reqField o "partiallyFillable" decodeBoolean,
          rawListField o "postInteractions",
          rawListField o "preInteractions",
          reqField o "sellAmount" decodeTokenAmount,
          reqField o "sellToken" decodeString,
          reqField o "sellTokenSource" decodeString,
          reqField o "signature" decodeString,
          reqField o "signingScheme" decodeString,
          reqField o "uid" decodeString,
          reqField o "validTo" decodeInt,
          optField o "receiver" decodeString,
          optField o "created" decodeString,
          optField o "executed" decodeTokenAmount,
          rawListField o "protocolFees" with
    | some appData, some buyAmount, some buyToken, some buyTokenDestination,
      some klass, some fullBuyAmount, some fullSellAmount, some kind,
      some owner, some partiallyFillable, some postInteractions,
      some preInteractions, some sellAmount, some sellToken,
      some sellTokenSource, some signature, some signingScheme, some uid,
      some validTo, some receiver, some created, some executed,
      some protocolFees =>
      some { appData, buyAmount, buyToken, buyTokenDestination, klass,
             fullBuyAmount, fullSellAmount, kind, owner, partiallyFillable,
             postInteractions, preInteractions, sellAmount, sellToken,
             sellTokenSource, signature, signingScheme, uid, validTo,
             receiver, created, executed, protocolFees }
    | _, _, _, _, _, _, _, _, _, _, _, _, _, _, _, _, _, _, _, _, _, _, _ =>
      none
  | _ => none

/-- models.py:210-224 — decoding the `/solve` request body. -/
def decodeSolverRequest : Json → Option SolverRequest
  | .obj o => do
    let deadline ← reqField o "deadline" decodeString
    let effectiveGasPrice ← reqField o "effectiveGasPrice" decodeTokenAmount
    let id ← decodeRequestId o
    let liquidity ← reqField o "liquidity" (decodeArr decodeSolverLiquidity)
    let orders ← reqField o "orders" (decodeArr decodeSolverOrder)
    let surplusCapturingJitOrderOwners ←
      reqField o "surplusCapturingJitOrderOwners" (decodeArr decodeString)
    let tokens ← reqField o "tokens" (decodeDict decodeSolverTokenInfo)
    pure { deadline, effectiveGasPrice, id, liquidity, orders,
           surplusCapturingJitOrderOwners, tokens }
  | _ => none

-- ---------------------------------------------------------------------------
-- The spec's wire-format BigUint validator (for comparison with the code)
-- ---------------------------------------------------------------------------

/-- Numeric value of a decimal digit list. -/
def decimalValue (cs : List Char) : Nat :=
  cs.foldl (fun acc c => acc * 10 + (c.toNat - 48)) 0

/-- Modelled from the spec: the `TokenAmount`/`BigUint` wire validator of
§3/§4.1, which is absent from the code (models.py:9 attaches no validation):
a non-empty all-digit string, no sign, no leading zeros, denoting a value in
[0, 2^256 - 1]. -/
def specWireBigUint (s : String) : Bool :=
  let cs := s.toList
  decide (cs ≠ []) && cs.all Char.isDigit &&
    (decide (cs.length = 1) || decide (cs.head? ≠ some '0')) &&
    decide (decimalValue cs < 2 ^ 256)

-- ---------------------------------------------------------------------------
-- Handlers (main.py)
-- ---------------------------------------------------------------------------

/-- main.py:22 `get_mock_address`. -/
def get_mock_address (index : Nat := 0) : Address :=
  "0x" ++ String.mk (List.replicate (39 - (toString index).length) '1')
       ++ toString index ++ "aBcDeF"

/-- main.py:49-54 — the local `sell_amount` / `buy_amount` computation inside
`get_quote` (returned pair is `(sell_amount, buy_amount)`); `none` models the
`ValueError` Python's `int(amount)` raises on a non-numeric string. -/
def quoteAmounts (kind : OrderKind) (amount : TokenAmount) :
    Option (String × String) :=
  match pyIntOfString? amount with
  | none => none
  | some n =>
    match kind with
    | .sell => some (amount, toString (Int.fdiv (n * 95) 100))
    | .buy => some (toString (Int.fdiv (n * 100) 95), amount)

/-- main.py:33-67 `get_quote`: computes `quoteAmounts`, then returns a
`QuoteResponse` built only from the token addresses and constants — the
computed amounts are not placed in the response. -/
def get_quote (sellToken buyToken : Address) (kind : OrderKind)
    (amount : TokenAmount) (deadline : DateTime) : Option QuoteResponse :=
  match quoteAmounts kind amount with
  | none => none
  | some _ =>
    some
      { clearingPrices :=
          [(sellToken, "1000000000000000000"), (buyToken, "950000000000000000")]
        preInteractions := []
        interactions := []
        solver := get_mock_address 0
        gas := 150000
        txOrigin := none
        jitOrders := [] }

/-- main.py:75-115 `solve_auction`: with a first order and a first liquidity
entry it builds the single mock solution (id 0); otherwise it returns an
empty solution list. (Python builds `prices` as a dict literal; the two
insertions are kept as a two-entry association list.) -/
def solve_auction (request : SolverRequest) : SolveResponse :=
  match request.orders, request.liquidity with
  | first_order :: _, first_liquidity :: _ =>
    { solutions :=
        [{ id := 0
           prices := [(first_order.sellToken, first_order.buyAmount),
                      (first_order.buyToken, first_order.sellAmount)]
           trades := [{ order := first_order.uid
                        executedAmount := first_order.sellAmount }]
           interactions := [{ internalize := false
                              id := first_liquidity.id
                              inputToken := first_order.sellToken
                              outputToken := first_order.buyToken
                              inputAmount := first_order.sellAmount
                              outputAmount := first_order.buyAmount }]
           gas := some 250000 }] }
  | _, _ => { solutions := [] }

/-- Error outcomes an HTTP handler could signal. `reveal_solution` is typed
with this so the NotFound contract of the spec is statable; the handler as
written never produces it. -/
inductive HandlerError where
  | notFound
deriving DecidableEq, Repr

/-- main.py:130-144 `reveal_solution`: unconditionally returns the fixed
mock calldata for every request. -/
def reveal_solution (request : RevealRequest) :
    Except HandlerError RevealResponse :=
  .ok { calldata := { internalized := "0xdeadbeef1234"
                      uninternalized := "0xfeedface5678" } }

-- ---------------------------------------------------------------------------
-- Concrete sample values used to evaluate the handlers and codecs
-- ---------------------------------------------------------------------------

def addrA : Address := "0xaaaaaaaaaaaaaaaaaaaaaaaaaaaaaaaaaaaaaaaa"

def addrB : Address := "0xbbbbbbbbbbbbbbbbbbbbbbbbbbbbbbbbbbbbbbbb"

def addrC : Address := "0xcccccccccccccccccccccccccccccccccccccccc"

def sampleUid : OrderUID :=
  "0x1111111111111111111111111111111111111111111111111111111111111111111111111111111111111111111111111111111111111111"

/-- A buy-kind solver order whose sellAmount (1000) differs from its
buyAmount (500). -/
def sampleBuyOrder : SolverOrder :=
  { appData := "0x0000000000000000000000000000000000000000000000000000000000000000"
    buyAmount := "500"
    buyToken := addrB
    buyTokenDestination := "erc20"
    klass := .market
    fullBuyAmount := "500"
    fullSellAmount := "1000"
    kind := .buy
    owner := addrA
    partiallyFillable := false
    sellAmount := "1000"
    sellToken := addrA
    sellTokenSource := "erc20"
    signature := "0x"
    signingScheme := "eip712"
    uid := sampleUid
    validTo := 1893456000 }

def sampleLiquidity : SolverLiquidity :=
  { address := addrC
    fee := "0.003"
    gasEstimate := "110000"
    id := "7"
    kind := "constantProduct"
    router := addrC
    tokens := [(addrA, { balance := "100000" }), (addrB, { balance := "200000" })] }

def sampleRequest : SolverRequest :=
  { deadline := "2025-08-06T15:18:31Z"
    effectiveGasPrice := "15000000000"
    id := some 1
    liquidity := [sampleLiquidity]
    orders := [sampleBuyOrder]
    surplusCapturingJitOrderOwners := []
    tokens := [] }

/-- A second, different auction (another id), for a second solve call. -/
def sampleRequest2 : SolverRequest :=
  { sampleRequest with id := some 2 }

def emptyRequest : SolverRequest :=
  { deadline := "2025-08-06T15:18:31Z"
    effectiveGasPrice := "15000000000"
    id := none
    liquidity := []
    orders := []
    surplusCapturingJitOrderOwners := []
    tokens := [] }

/-- The solution `solve_auction` builds for `sampleRequest`. -/
def sampleSolution : Solution :=
  { id := 0
    prices := [(addrA, "500"), (addrB, "1000")]
    trades := [{ order := sampleUid, executedAmount := "1000" }]
    interactions := [{ internalize := false
                       id := "7"
                       inputToken := addrA
                       outputToken := addrB
                       inputAmount := "1000"
                       outputAmount := "500" }]
    gas := some 250000 }

/-- A `/solve` wire body with the given leading fields (used to vary how the
`id` field is given) followed by the remaining required fields. -/
def solveWireBody (idFields : List (String × Json)) : Json :=
  .obj (idFields ++
    [("deadline", .str "2025-08-06T15:18:31Z"),
     ("effectiveGasPrice", .str "15000000000"),
     ("liquidity", .arr []),
     ("orders", .arr []),
     ("surplusCapturingJitOrderOwners", .arr []),
     ("tokens", .obj [])])

/-- The `SolverRequest` that `solveWireBody` decodes to, for a given id. -/
def solveReqDecoded (i : Option Int) : SolverRequest :=
  { deadline := "2025-08-06T15:18:31Z"
    effectiveGasPrice := "15000000000"
    id := i
    liquidity := []
    orders := []
    surplusCapturingJitOrderOwners := []
    tokens := [] }

/-- A `/solve` wire order that gives the int-typed `validTo` field as the
STRING "12345"; every other field is in its declared wire type. -/
def solverOrderWireStrValidTo : Json :=
  .obj [("appData", .str "0x00"),
        ("buyAmount", .str "500"),
        ("buyToken", .str addrB),
        ("buyTokenDestination", .str "erc20"),
        ("class", .str "market"),
        ("fullBuyAmount", .str "500"),
        ("fullSellAmount", .str "1000"),
        ("kind", .str "buy"),
        ("owner", .str addrA),
        ("partiallyFillable", .bool false),
        ("sellAmount", .str "1000"),
        ("sellToken", .str addrA),
        ("sellTokenSource", .str "erc20"),
        ("signature", .str "0x"),
        ("signingScheme", .str "eip712"),
        ("uid", .str sampleUid),
        ("validTo", .str "12345")]

/-- A `/solve` wire body whose single order carries the string-valued
`validTo`. -/
def solveBodyStrValidTo : Json :=
  .obj [("deadline", .str "2025-08-06T15:18:31Z"),
        ("effectiveGasPrice", .str "15000000000"),
        ("liquidity", .arr []),
        ("orders", .arr [solverOrderWireStrValidTo]),
        ("surplusCapturingJitOrderOwners", .arr []),
        ("tokens", .obj [])]

/-- A fully populated documented-schema `Order` value. -/
def sampleOrder : Order :=
  { uid := sampleUid
    sellToken := addrA
    buyToken := addrB
    sellAmount := "1000"
    buyAmount := "500"
    created := "123456"
    validTo := 1893456000
    kind := .sell
    receiver := addrB
    owner := addrA
    partiallyFillable := false
    executed := "0"
    preInteractions := [{ target := addrC, value := "0", callData := "0xab" }]
    postInteractions := []
    sellTokenBalance := .erc20
    buyTokenBalance := .internal
    klass := .limit
    appData := "0x0000000000000000000000000000000000000000000000000000000000000000"
    signingScheme := .eip712
    signature := "0x"
    protocolFees := [.volumeFee 2, .surplusFee 1 2]
    quote := some { sellAmount := "1000", buyAmount := "510", fee := "5",
                    solver := addrC } }

/-- A valid `Solution` wire payload that omits the optional `gas` field
(and the defaulted/optional `kind`/`fee` fields of its trade). -/
def solutionWireNoGas : Json :=
  .obj [("id", .num 3),
        ("prices", .obj [(addrA, .str "500")]),
        ("trades", .arr [.obj [("order", .str sampleUid),
                               ("executedAmount", .str "1000")]]),
        ("interactions", .arr [])]

-- ---------------------------------------------------------------------------
-- Claims about the handlers
-- ---------------------------------------------------------------------------

/-- C1 (code-bug evidence): the quote handler computes the claimed amounts —
`sell_amount`/`buy_amount` with `buyAmount = floor(amount*95/100)` for sell
and `sellAmount = floor(amount*100/95)` for buy — but then discards them:
the `QuoteResponse` it returns carries no amount field and is identical for
every amount. -/
theorem C1_quote_amounts_computed_but_discarded :
    quoteAmounts .sell "100" = some ("100", "95") ∧
    quoteAmounts .buy "100" = some ("105", "100") ∧
    get_quote addrA addrB .sell "100" "2025-08-06T15:18:31Z" =
      get_quote addrA addrB .sell "77777" "2025-08-06T15:18:31Z" :=
  ⟨rfl, rfl, rfl⟩

/-- C2 (amended): every `Solution` the solve handler produces has id 0 —
the id is the hard-coded literal 0, not drawn from any counter, so distinct
solve calls yield equal (never distinct) ids. -/
theorem C2_solution_ids_all_zero
    (request : SolverRequest) (sol : Solution)
    (h : sol ∈ (solve_auction request).solutions) : sol.id = 0 := by
  obtain ⟨dl, gp, i, liq, ords, sj, toks⟩ := request
  cases ords with
  | nil => simp [solve_auction] at h
  | cons o os =>
    cases liq with
    | nil => simp [solve_auction] at h
    | cons l ls =>
      simp only [solve_auction, List.mem_singleton] at h
      rw [h]

/-- Witness for C2 (amended): the solution produced for the sample auction
has id 0. -/
theorem C2_solution_ids_all_zero_witness :
    sampleSolution ∈ (solve_auction sampleRequest).solutions ∧
    sampleSolution.id = 0 :=
  ⟨List.mem_singleton.mpr rfl,
   C2_solution_ids_all_zero sampleRequest sampleSolution
     (List.mem_singleton.mpr rfl)⟩

/-- C2 (counterexample): two solve calls on two different auctions each
produce a solution, and the ids are not pairwise distinct — both are 0. -/
theorem C2_counterexample :
    ¬ ∀ s1 ∈ (solve_auction sampleRequest).solutions,
        ∀ s2 ∈ (solve_auction sampleRequest2).solutions, s1.id ≠ s2.id := by
  intro h
  exact h sampleSolution (List.mem_singleton.mpr rfl)
          sampleSolution (List.mem_singleton.mpr rfl) rfl

/-- C3 (amended): the reveal handler returns the fixed mock calldata for
every request — whatever the solutionId — and never fails with NotFound. -/
theorem C3_reveal_always_fixed_calldata (request : RevealRequest) :
    reveal_solution request =
      .ok { calldata := { internalized := "0xdeadbeef1234"
                          uninternalized := "0xfeedface5678" } } := rfl

/-- Witness for C3 (amended): evaluated at a concrete request. -/
theorem C3_reveal_always_fixed_calldata_witness :
    reveal_solution { solutionId := 999, auctionId := 1 } =
      .ok { calldata := { internalized := "0xdeadbeef1234"
                          uninternalized := "0xfeedface5678" } } :=
  C3_reveal_always_fixed_calldata { solutionId := 999, auctionId := 1 }

/-- C3 (counterexample): a reveal request whose solutionId (999) was never
produced by any solve call succeeds with calldata instead of failing with
NotFound. -/
theorem C3_counterexample :
    reveal_solution { solutionId := 999, auctionId := 1 } ≠
      Except.error HandlerError.notFound ∧
    reveal_solution { solutionId := 999, auctionId := 1 } =
      .ok { calldata := { internalized := "0xdeadbeef1234"
                          uninternalized := "0xfeedface5678" } } :=
  ⟨by simp [reveal_solution], rfl⟩

/-- C4: for an auction with exactly one order and one liquidity entry,
solve returns exactly one Solution, whose single trade references the
order's uid and whose single interaction references the liquidity id. -/
theorem C4_single_order_single_liquidity
    (request : SolverRequest) (O : SolverOrder) (L : SolverLiquidity)
    (hO : request.orders = [O]) (hL : request.liquidity = [L]) :
    ∃ sol, (solve_auction request).solutions = [sol] ∧
      sol.trades.map TradeFulfillment.order = [O.uid] ∧
      sol.interactions.map LiquidityInteraction.id = [L.id] := by
  unfold solve_auction
  rw [hO, hL]
  exact ⟨_, rfl, rfl, rfl⟩

/-- Witness for C4 at the sample auction. -/
theorem C4_single_order_single_liquidity_witness :
    sampleRequest.orders = [sampleBuyOrder] ∧
    sampleRequest.liquidity = [sampleLiquidity] ∧
    ∃ sol, (solve_auction sampleRequest).solutions = [sol] ∧
      sol.trades.map TradeFulfillment.order = [sampleBuyOrder.uid] ∧
      sol.interactions.map LiquidityInteraction.id = [sampleLiquidity.id] :=
  ⟨rfl, rfl,
   C4_single_order_single_liquidity sampleRequest sampleBuyOrder
     sampleLiquidity rfl rfl⟩

/-- C5: an auction with no orders or no liquidity solves to an empty
solutions list — a success value, not an error (the handler's return type
has no error case at all). -/
theorem C5_empty_input_empty_solutions
    (request : SolverRequest)
    (h : request.orders = [] ∨ request.liquidity = []) :
    solve_auction request = { solutions := [] } := by
  obtain ⟨dl, gp, i, liq, ords, sj, toks⟩ := request
  cases ords with
  | nil => rfl
  | cons o os =>
    cases liq with
    | nil => rfl
    | cons l ls =>
      exfalso
      rcases h with h | h <;> simp at h

/-- Witness for C5 at a concrete auction with no orders and no liquidity. -/
theorem C5_empty_input_empty_solutions_witness :
    emptyRequest.orders = [] ∧ solve_auction emptyRequest = { solutions := [] } :=
  ⟨rfl, C5_empty_input_empty_solutions emptyRequest (Or.inl rfl)⟩

/-- C10: whenever solve produces its solution, the single trade's
executedAmount is the first order's sellAmount — whatever the order's kind
is, it is never taken from buyAmount. -/
theorem C10_executed_amount_is_sell_amount
    (request : SolverRequest) (O : SolverOrder) (rest : List SolverOrder)
    (L : SolverLiquidity) (lrest : List SolverLiquidity)
    (hO : request.orders = O :: rest) (hL : request.liquidity = L :: lrest) :
    ∃ sol, (solve_auction request).solutions = [sol] ∧
      sol.trades.map TradeFulfillment.executedAmount = [O.sellAmount] := by
  unfold solve_auction
  rw [hO, hL]
  exact ⟨_, rfl, rfl⟩

/-- Witness for C10 at a buy-kind order whose sellAmount (1000) differs
from its buyAmount (500): the executed amount is still the sellAmount. -/
theorem C10_executed_amount_is_sell_amount_witness :
    sampleBuyOrder.kind = OrderKind.buy ∧
    sampleBuyOrder.sellAmount ≠ sampleBuyOrder.buyAmount ∧
    ∃ sol, (solve_auction sampleRequest).solutions = [sol] ∧
      sol.trades.map TradeFulfillment.executedAmount =
        [sampleBuyOrder.sellAmount] :=
  ⟨rfl, by decide,
   C10_executed_amount_is_sell_amount sampleRequest sampleBuyOrder []
     sampleLiquidity [] rfl rfl⟩

-- ---------------------------------------------------------------------------
-- Round-trip lemmas for the codecs
-- ---------------------------------------------------------------------------

theorem decodeTokenAmount_str (s : String) :
    decodeTokenAmount (.str s) = some s := rfl

theorem decodeInteraction_encode (x : Interaction) :
    decodeInteraction (encodeInteraction x) = some x := rfl

theorem decodeQuote_encode (q : Quote) :
    decodeQuote (encodeQuote q) = some q := rfl

theorem decodeFeePolicy_encode (p : FeePolicy) :
    decodeFeePolicy (encodeFeePolicy p) = some p := by cases p <;> rfl

theorem decodeInt_num (n : Int) : decodeInt (.num (n : Rat)) = some n := by
  simp [decodeInt, Rat.den_intCast, Rat.num_intCast]

theorem decodeEach_map {α : Type} {f : α → Json} {g : Json → Option α}
    (h : ∀ a, g (f a) = some a) :
    ∀ xs : List α, decodeEach g (xs.map f) = some xs
  | [] => rfl
  | x :: xs => by simp [decodeEach, h x, decodeEach_map h xs]

theorem decodeEntries_map {α : Type} {f : α → Json} {g : Json → Option α}
    (h : ∀ a, g (f a) = some a) :
    ∀ xs : List (String × α),
      decodeEntries g (xs.map fun kv => (kv.1, f kv.2)) = some xs
  | [] => rfl
  | (k, v) :: xs => by simp [decodeEntries, h v, decodeEntries_map h xs]

theorem decodeTradeFulfillment_encode (t : TradeFulfillment) :
    decodeTradeFulfillment (encodeTradeFulfillment t) = some t := by
  obtain ⟨k, o, e, f⟩ := t
  cases k
  cases f <;> rfl

theorem decodeLiquidityInteraction_encode (x : LiquidityInteraction) :
    decodeLiquidityInteraction (encodeLiquidityInteraction x) = some x := by
  obtain ⟨k, i, idv, it, ot, ia, oa⟩ := x
  cases k
  rfl

theorem decodeSolution_encode (s : Solution) :
    decodeSolution (encodeSolution s) = some s := by
  obtain ⟨i, prices, trades, inters, gas⟩ := s
  cases gas <;>
    simp [decodeSolution, encodeSolution, reqField, optField, jLookup,
          decodeArr, decodeDict, decodeInt_num, encodeOpt,
          decodeEach_map decodeTradeFulfillment_encode,
          decodeEach_map decodeLiquidityInteraction_encode,
          decodeEntries_map decodeTokenAmount_str]

theorem decodeOrderKind_encode (k : OrderKind) :
    decodeOrderKind (encodeOrderKind k) = some k := by cases k <;> rfl

theorem decodeOrderClass_encode (c : OrderClass) :
    decodeOrderClass (encodeOrderClass c) = some c := by cases c <;> rfl

theorem decodeSellBalanceSource_encode (b : SellBalanceSource) :
    decodeSellBalanceSource (encodeSellBalanceSource b) = some b := by
  cases b <;> rfl

theorem decodeBuyBalanceSource_encode (b : BuyBalanceSource) :
    decodeBuyBalanceSource (encodeBuyBalanceSource b) = some b := by
  cases b <;> rfl

theorem decodeSigningScheme_encode (s : SigningScheme) :
    decodeSigningScheme (encodeSigningScheme s) = some s := by
  cases s <;> rfl

theorem decodeOrder_encode (x : Order) :
    decodeOrder (encodeOrder x) = some x := by
  obtain ⟨uid, st, bt, sa, ba, cr, vt, k, rc, ow, pf, ex, pre, post, stb, btb,
          kl, ad, ss, sig, fees, q⟩ := x
  cases q <;>
    simp [decodeOrder, encodeOrder, reqField, optField, jLookup,
          decodeArr, decodeInt_num, encodeOpt, decodeString, decodeTokenAmount,
          decodeBoolean, decodeQuote, encodeQuote,
          decodeOrderKind_encode, decodeOrderClass_encode,
          decodeSellBalanceSource_encode, decodeBuyBalanceSource_encode,
          decodeSigningScheme_encode,
          decodeEach_map decodeInteraction_encode,
          decodeEach_map decodeFeePolicy_encode]

-- ---------------------------------------------------------------------------
-- Claims about the schema layer
-- ---------------------------------------------------------------------------

/-- C6: FeePolicy decoding is discriminated by the `kind` tag: a surplus
payload without `factor` fails, an unrecognized kind fails, each of the
three kinds decodes to exactly its own variant, and every successful decode
comes from a payload whose `kind` tag names the decoded variant (no
field-shape guessing). -/
theorem C6_feepolicy_kind_discrimination :
    decodeFeePolicy (.obj [("kind", .str "surplus"),
      ("maxVolumeFactor", .num 1)]) = none ∧
    decodeFeePolicy (.obj [("kind", .str "unknown"),
      ("maxVolumeFactor", .num 1), ("factor", .num 2)]) = none ∧
    decodeFeePolicy (.obj [("kind", .str "surplus"),
      ("maxVolumeFactor", .num 1), ("factor", .num 2)]) =
      some (.surplusFee 1 2) ∧
    decodeFeePolicy (.obj [("kind", .str "priceImprovement"),
      ("maxVolumeFactor", .num 1), ("factor", .num 2),
      ("quote", .obj [("sellAmount", .str "5"), ("buyAmount", .str "6"),
                      ("fee", .str "1"), ("solver", .str addrA)])]) =
      some (.priceImprovement 1 2
        { sellAmount := "5", buyAmount := "6", fee := "1", solver := addrA }) ∧
    decodeFeePolicy (.obj [("kind", .str "volume"), ("factor", .num 2)]) =
      some (.volumeFee 2) ∧
    (∀ o p, decodeFeePolicy (.obj o) = some p →
      jLookup o "kind" = some (.str p.kindTag)) := by
  refine ⟨rfl, rfl, rfl, rfl, rfl, ?_⟩
  intro o p h
  simp only [decodeFeePolicy] at h
  split at h
  · obtain ⟨mvf, -, h1⟩ := Option.bind_eq_some.mp h
    obtain ⟨f, -, h2⟩ := Option.bind_eq_some.mp h1
    obtain rfl : FeePolicy.surplusFee mvf f = p := Option.some.inj h2
    assumption
  · obtain ⟨mvf, -, h1⟩ := Option.bind_eq_some.mp h
    obtain ⟨f, -, h2⟩ := Option.bind_eq_some.mp h1
    obtain ⟨q, -, h3⟩ := Option.bind_eq_some.mp h2
    obtain rfl : FeePolicy.priceImprovement mvf f q = p := Option.some.inj h3
    assumption
  · obtain ⟨f, -, h1⟩ := Option.bind_eq_some.mp h
    obtain rfl : FeePolicy.volumeFee f = p := Option.some.inj h1
    assumption
  · simp at h

/-- Witness for C6 at a concrete volume payload: the successful decode's
variant matches the payload's `kind` tag. -/
theorem C6_feepolicy_kind_discrimination_witness :
    jLookup [("kind", Json.str "volume"), ("factor", Json.num 2)] "kind" =
      some (.str (FeePolicy.volumeFee 2).kindTag) :=
  C6_feepolicy_kind_discrimination.2.2.2.2.2
    [("kind", Json.str "volume"), ("factor", Json.num 2)] (.volumeFee 2) rfl

/-- C7 (code-bug evidence): the code's TokenAmount accepts any JSON string —
"abc", "-1" and "007" all decode successfully — while the spec's wire
validator (matching the field's own description) rejects each of them and
accepts genuine decimal numerals. -/
theorem C7_tokenamount_accepts_any_string :
    decodeTokenAmount (.str "abc") = some "abc" ∧
    decodeTokenAmount (.str "-1") = some "-1" ∧
    decodeTokenAmount (.str "007") = some "007" ∧
    specWireBigUint "abc" = false ∧
    specWireBigUint "-1" = false ∧
    specWireBigUint "007" = false ∧
    specWireBigUint "0" = true ∧
    specWireBigUint "12345678901234567890" = true := by
  refine ⟨rfl, rfl, rfl, ?_, ?_, ?_, ?_, ?_⟩ <;> decide

/-- C8 (amended): decoding inverts wire encoding for every Order, Solution
and FeePolicy value, and the order-class field travels under the wire name
`class` (its internal name `klass` never appears on the wire). The converse
composition encode∘decode reproduces only payloads that spell out all
optional/defaulted fields — see the counterexample. -/
theorem C8_roundtrip_and_class_alias :
    (∀ x : Order, decodeOrder (encodeOrder x) = some x) ∧
    (∀ s : Solution, decodeSolution (encodeSolution s) = some s) ∧
    (∀ p : FeePolicy, decodeFeePolicy (encodeFeePolicy p) = some p) ∧
    (∀ x : Order, "class" ∈ (encodeOrder x).topKeys ∧
      "klass" ∉ (encodeOrder x).topKeys) :=
  ⟨decodeOrder_encode, decodeSolution_encode, decodeFeePolicy_encode,
   fun x => by simp [encodeOrder, Json.topKeys]⟩

/-- Witness for C8 (amended) at a fully populated concrete Order. -/
theorem C8_roundtrip_and_class_alias_witness :
    decodeOrder (encodeOrder sampleOrder) = some sampleOrder ∧
    "class" ∈ (encodeOrder sampleOrder).topKeys :=
  ⟨C8_roundtrip_and_class_alias.1 sampleOrder,
   (C8_roundtrip_and_class_alias.2.2.2 sampleOrder).1⟩

/-- C8 (counterexample): a valid Solution wire payload that omits the
optional `gas` field decodes successfully, but re-encoding the decoded
value does not reproduce the payload (the encoder re-emits the omitted
fields), so encode(decode(j)) == j fails on this valid wire payload. -/
theorem C8_counterexample :
    (decodeSolution solutionWireNoGas).isSome = true ∧
    (decodeSolution solutionWireNoGas).map encodeSolution ≠
      some solutionWireNoGas := by
  refine ⟨rfl, fun h => ?_⟩
  exact absurd (congrArg (Option.map Json.topKeys) h) (by decide)

/-- C9 (counterexample): the id normalization is not the only coercion the
validation layer performs — this solve request, whose order gives the
int-typed `validTo` as the string "12345", decodes successfully with
`validTo` coerced to the integer 12345 by the framework's lax validation. -/
theorem C9_counterexample :
    (decodeSolverRequest solveBodyStrValidTo).map
      (fun r => r.orders.map SolverOrder.validTo) = some [12345] := rfl

/-- C9 (amended): the solve-request decoder accepts the auction `id` as a
string or as an integer and normalizes it to an integer, and preserves an
absent or null id as absent; the `anystr_to_int` validator is only the sole
source-level coercion, not the only coercion — lax validation also coerces
a decimal string for the int-typed `validTo` field of an order — while
string-declared fields are still not coerced (a numeric
`effectiveGasPrice` fails). -/
theorem C9_id_coercion_amended :
    (∀ o s n, jLookup o "id" = some (.str s) → pyIntOfString? s = some n →
      decodeRequestId o = some (some n)) ∧
    (∀ o (n : Int), jLookup o "id" = some (.num (n : Rat)) →
      decodeRequestId o = some (some n)) ∧
    (∀ o, jLookup o "id" = none → decodeRequestId o = some none) ∧
    (∀ o, jLookup o "id" = some .null → decodeRequestId o = some none) ∧
    decodeSolverRequest (solveWireBody [("id", .str "123")]) =
      some (solveReqDecoded (some 123)) ∧
    decodeSolverRequest (solveWireBody [("id", .num 123)]) =
      some (solveReqDecoded (some 123)) ∧
    decodeSolverRequest (solveWireBody []) = some (solveReqDecoded none) ∧
    decodeSolverRequest (solveWireBody [("id", .null)]) =
      some (solveReqDecoded none) ∧
    (decodeSolverRequest solveBodyStrValidTo).map
      (fun r => r.orders.map SolverOrder.validTo) = some [12345] ∧
    decodeSolverRequest (.obj [("deadline", .str "2025-08-06T15:18:31Z"),
      ("effectiveGasPrice", .num 15), ("liquidity", .arr []),
      ("orders", .arr []), ("surplusCapturingJitOrderOwners", .arr []),
      ("tokens", .obj [])]) = none := by
  refine ⟨?_, ?_, ?_, ?_, rfl, rfl, rfl, rfl, rfl, rfl⟩
  · intro o s n h1 h2
    simp [decodeRequestId, h1, pyIntCoerce, h2]
  · intro o n h1
    simp [decodeRequestId, h1, pyIntCoerce, pyTrunc,
          Int.floor_intCast, Int.ceil_intCast]
  · intro o h1
    simp [decodeRequestId, h1]
  · intro o h1
    simp [decodeRequestId, h1]

/-- Witness for C9 (amended) at a concrete field list carrying the id as
the string "123": the decoded id is the integer 123. -/
theorem C9_id_coercion_amended_witness :
    pyIntOfString? "123" = some 123 ∧
    decodeRequestId [("id", Json.str "123")] = some (some 123) :=
  ⟨rfl, C9_id_coercion_amended.1 [("id", Json.str "123")] "123" 123 rfl rfl⟩

end PySolver
